import Mathlib

/-!
Verification of the DynamicAnnotationDB repository core:
table identity codec (key_utils.py), the annotation store operations
(annotation_client.py) and the schema metadata parser (schema.py),
shallowly embedded as executable Lean definitions.
-/

/-! ## Table identity codec (src/dynamicannotationdb/key_utils.py) -/

/-- Python `s.split("__")` on a list of characters: leftmost-first,
non-overlapping split on the two-character separator.  Always returns a
non-empty list of segments. -/
def splitDunder : List Char → List (List Char)
  | [] => [[]]
  | [c] => [[c]]
  | c₁ :: c₂ :: rest =>
    if c₁ == '_' && c₂ == '_' then
      [] :: splitDunder rest
    else
      match splitDunder (c₂ :: rest) with
      | s :: ss => (c₁ :: s) :: ss
      | [] => [[c₁]]

/-- Whether a character list contains the two-character separator "__"
as a contiguous substring. -/
def hasDunder : List Char → Bool
  | c₁ :: c₂ :: rest => (c₁ == '_' && c₂ == '_') || hasDunder (c₂ :: rest)
  | _ => false

/-- key_utils.build_table_id: `f"{aligned_volume}__{table_name}"` —
plain concatenation, no validation of the inputs. -/
def build_table_id (aligned_volume : String) (table_name : String) : String :=
  aligned_volume ++ "__" ++ table_name

/-- key_utils.build_segmentation_table_name:
`f"{annotation_table_name}__{segmentation_source}"`. -/
def build_segmentation_table_name (annotation_table_name : String)
    (segmentation_source : String) : String :=
  annotation_table_name ++ "__" ++ segmentation_source

/-- key_utils.get_table_name_from_table_id: `table_id.split("__")[-1]`
(last segment; `split` always returns at least one segment, so Python
index `[-1]` is total). -/
def get_table_name_from_table_id (table_id : String) : String :=
  String.mk ((splitDunder table_id.data).getLastD [])

/-- key_utils.get_dataset_name_from_table_id: `table_id.split("__")[1]`
(segment at index 1; Python raises IndexError when there are fewer than
two segments, modelled as `none`). -/
def get_dataset_name_from_table_id (table_id : String) : Option String :=
  ((splitDunder table_id.data).get? 1).map String.mk

theorem splitDunder_nil : splitDunder [] = [[]] := rfl

theorem splitDunder_single (c : Char) : splitDunder [c] = [[c]] := rfl

theorem splitDunder_cons₂ (c₁ c₂ : Char) (l : List Char) :
    splitDunder (c₁ :: c₂ :: l) =
      if c₁ == '_' && c₂ == '_' then
        [] :: splitDunder l
      else
        match splitDunder (c₂ :: l) with
        | s :: ss => (c₁ :: s) :: ss
        | [] => [[c₁]] := by
  rw [splitDunder]

/-- A character list with no "__" substring is a single segment. -/
theorem splitDunder_of_not_hasDunder (l : List Char) (h : hasDunder l = false) :
    splitDunder l = [l] := by
  induction l with
  | nil => rfl
  | cons c rest ih =>
    cases rest with
    | nil => rfl
    | cons c₂ rest₂ =>
      have hb : (c == '_' && c₂ == '_') = false := by
        rw [hasDunder] at h
        exact (Bool.or_eq_false_iff.mp h).1
      have ht : hasDunder (c₂ :: rest₂) = false := by
        rw [hasDunder] at h
        exact (Bool.or_eq_false_iff.mp h).2
      rw [splitDunder_cons₂, hb, ih ht]
      simp

/-- If the left part has no "__" substring and does not end in '_', the
first separator of `ns ++ "__" ++ t` is exactly at the boundary. -/
theorem splitDunder_boundary (ns t : List Char)
    (h1 : hasDunder ns = false) (h2 : ns.getLast? ≠ some '_') :
    splitDunder (ns ++ '_' :: '_' :: t) = ns :: splitDunder t := by
  induction ns with
  | nil => simp [splitDunder_cons₂]
  | cons c ns' ih =>
    cases ns' with
    | nil =>
      have hc : (c == '_') = false := by
        cases hcc : c == '_' with
        | false => rfl
        | true =>
          exact absurd (by simp [beq_iff_eq.mp hcc]) h2
      rw [List.cons_append, List.nil_append, splitDunder_cons₂]
      rw [hc, Bool.false_and, if_neg (by simp)]
      rw [show splitDunder ('_' :: '_' :: t) = [] :: splitDunder t by
        rw [splitDunder_cons₂]; simp]
    | cons c₂ ns'' =>
      have hb : (c == '_' && c₂ == '_') = false := by
        rw [hasDunder] at h1
        exact (Bool.or_eq_false_iff.mp h1).1
      have ht : hasDunder (c₂ :: ns'') = false := by
        rw [hasDunder] at h1
        exact (Bool.or_eq_false_iff.mp h1).2
      have hl : (c₂ :: ns'').getLast? ≠ some '_' := by
        rwa [List.getLast?_cons_cons] at h2
      have hshape : (c :: c₂ :: ns'') ++ '_' :: '_' :: t
          = c :: c₂ :: (ns'' ++ '_' :: '_' :: t) := by simp
      have hih : splitDunder (c₂ :: (ns'' ++ '_' :: '_' :: t))
          = (c₂ :: ns'') :: splitDunder t := by
        rw [show c₂ :: (ns'' ++ '_' :: '_' :: t) = (c₂ :: ns'') ++ '_' :: '_' :: t by simp]
        exact ih ht hl
      rw [hshape, splitDunder_cons₂, hb, if_neg (by simp), hih]

/-- Appending "__" anywhere produces a list containing "__". -/
theorem hasDunder_append_sep (l t : List Char) :
    hasDunder (l ++ '_' :: '_' :: t) = true := by
  induction l with
  | nil => simp [hasDunder]
  | cons c l' ih =>
    cases hl : l' ++ '_' :: '_' :: t with
    | nil => simp at hl
    | cons d rest =>
      rw [List.cons_append, hl, hasDunder, hl.symm, ih]
      simp

theorem string_data_append (s t : String) : (s ++ t).data = s.data ++ t.data := by
  cases s
  cases t
  rfl

theorem build_table_id_data (ns tn : String) :
    ( build_table_id ns tn).data = ns.data ++ '_' :: '_' :: tn.data := by
  rw [build_table_id, string_data_append, string_data_append]
  simp [show ("__" : String).data = ['_', '_'] from rfl]

/-- C5: the code of get_dataset_name_from_table_id returns the segment at
index 1 of the "__"-split, which for an id built from (namespace,
tableName) is the table name, not the namespace: on the failing input
(namespace "av", tableName "tbl") the decode yields "tbl" ≠ "av",
contradicting the claim (and the function's own docstring). -/
theorem C5_dataset_name_code_behavior :
    get_dataset_name_from_table_id ( build_table_id "av" "tbl") = some "tbl" ∧
    ("tbl" : String) ≠ "av" := by decide

/-- C6 counterexample: namespace "a_" and tableName "b" contain no "__",
yet the encoded id "a___b" splits leftmost-first into ["a", "_b"], so the
decoded table name is "_b", not "b". -/
theorem C6_roundtrip_counterexample :
    hasDunder "a_".data = false ∧ hasDunder "b".data = false ∧
    get_table_name_from_table_id ( build_table_id "a_" "b") = "_b" ∧
    ("_b" : String) ≠ "b" := by decide

/-- C6 amended: if additionally the namespace does not end with '_'
(so that concatenation cannot create an earlier "__" occurrence spanning
the boundary), decoding the encoded table id recovers the table name. -/
theorem C6_roundtrip_amended (ns tn : String)
    (h1 : hasDunder ns.data = false) (h2 : ns.data.getLast? ≠ some '_')
    (h3 : hasDunder tn.data = false) :
    get_table_name_from_table_id ( build_table_id ns tn) = tn := by
  rw [get_table_name_from_table_id, build_table_id_data,
    splitDunder_boundary ns.data tn.data h1 h2,
    splitDunder_of_not_hasDunder tn.data h3]
  cases tn
  rfl

/-- C6 amended witness: at namespace "av" and tableName "tbl" the
hypotheses hold and the round trip recovers "tbl". -/
theorem C6_roundtrip_amended_witness :
    (hasDunder "av".data = false ∧ "av".data.getLast? ≠ some '_' ∧
      hasDunder "tbl".data = false) ∧
    get_table_name_from_table_id ( build_table_id "av" "tbl") = "tbl" :=
  ⟨by decide, C6_roundtrip_amended "av" "tbl" (by decide) (by decide) (by decide)⟩

/-- C7 counterexample: on the input ("a__b", "c"), whose first component
contains the separator "__", build_table_id raises no validation error
and happily produces the table id "a__b__c". -/
theorem C7_no_validation_counterexample :
    hasDunder "a__b".data = true ∧
    build_table_id "a__b" "c" = "a__b__c" := by decide

/-- C7 amended: build_table_id performs no validation at all — for every
namespace and tableName (including ones containing "__") it returns the
plain concatenation namespace ++ "__" ++ tableName, which always
contains the separator. -/
theorem C7_no_validation_amended (ns tn : String) :
    build_table_id ns tn = ns ++ "__" ++ tn ∧
    hasDunder ( build_table_id ns tn).data = true := by
  refine ⟨rfl, ?_⟩
  rw [build_table_id_data]
  exact hasDunder_append_sep ns.data tn.data

/-! ## Annotation store (src/dynamicannotationdb/annotation_client.py)

The relational session, the schema registry and the model factory are
external collaborators of the repository (its interface module is not
part of the analysed source).  They are modelled from the spec: a table
is a list of rows plus the autoincrement counter of the storage
("flush() assigns ids", ids assigned by storage starting from 1), the
schema adapter's flattening is an abstract function from payloads to
flattened field maps, and a commit either succeeds or fails with one of
the backend error kinds imported by the client. -/

/-- Python truthiness of `annotation.get('id')` / `old_anno.superceded_id`
for an optional integer field: `None` and `0` are falsy, every other
number is truthy. -/
def pyTruthyNat : Option Nat → Bool
  | none => false
  | some n => n != 0

/-- A physical stored row of an annotation table: flattened annotation
fields `data` (abstract type α) plus the bookkeeping columns. -/
structure Row (α : Type) where
  id : Nat
  data : α
  created : Nat
  valid : Bool
  deleted : Option Nat
  superceded_id : Option Nat
deriving Repr, DecidableEq

/-- Modelled from the spec: an annotation table as seen through the
session boundary — committed rows plus the storage autoincrement
counter used by flush()/commit() to assign fresh ids. -/
structure TableState (α : Type) where
  rows : List (Row α)
  nextId : Nat
deriving Repr, DecidableEq

/-- A raw input record: the optional caller-supplied 'id' entry plus the
rest of the payload (abstract type π, consumed only by flattening). -/
structure Record (π : Type) where
  id : Option Nat
  payload : π
deriving Repr, DecidableEq

/-- A row instance constructed by `AnnotationModel(**annotation_data)`
before the session assigns ids: id is present only when the caller
supplied a truthy one. -/
structure PendingRow (α : Type) where
  id : Option Nat
  data : α
  created : Nat
  valid : Bool
deriving Repr, DecidableEq

/-- Backend error kinds imported by annotation_client.py from
sqlalchemy.exc; only `invalidRequestError` is caught by
insert_annotations. -/
inductive DbError
  | argumentError
  | invalidRequestError
  | operationalError
  | integrityError
deriving Repr, DecidableEq

/-- Outcome of insert_annotations: the raised limit exception, the
returned booleans, or an uncaught backend exception escaping the call. -/
inductive InsertResult
  | limitExceeded (count : Nat) (limit : Nat)
  | ok
  | failed
  | uncaught (e : DbError)
deriving Repr, DecidableEq

/-- Outcome of update_annotation: the four string messages the code can
return, with the ids they interpolate. -/
inductive UpdateResult
  | msgNeedsId
  | msgNoResult (anno_id : Nat)
  | msgSuperseded (anno_id : Nat) (target : Nat)
  | msgUpdated (anno_id : Nat)
deriving Repr, DecidableEq

/-- Modelled from the spec: commit-time id assignment by the storage —
rows carrying an explicit id keep it, rows without one receive
consecutive autoincrement ids starting at the table's counter. -/
def assignIds {α : Type} : Nat → List (PendingRow α) → List (Row α) × Nat
  | n, [] => ([], n)
  | n, p :: ps =>
    match p.id with
    | some k =>
      let r := assignIds n ps
      ({ id := k, data := p.data, created := p.created, valid := p.valid,
         deleted := none, superceded_id := none } :: r.1, r.2)
    | none =>
      let r := assignIds (n + 1) ps
      ({ id := n, data := p.data, created := p.created, valid := p.valid,
         deleted := none, superceded_id := none } :: r.1, r.2)

/-- DynamicAnnotationClient.insert_annotations.  `flat` is the schema
adapter's `_get_flattened_schema_data` restricted to its annotation part
(external, total on schema-valid payloads), `now` the shared
datetime.now() stamp, `commitOutcome` the behaviour of the backend
commit (`none` = success).  The code checks the 10000 limit first, then
formats each record (keeping a caller id only when truthy), adds all
rows and commits; only InvalidRequestError is caught and rolled back
(returning False), every other backend error escapes uncaught. -/
def insert_annotations {π α : Type} (flat : π → α) (now : Nat)
    (commitOutcome : Option DbError) (st : TableState α)
    (annos : List (Record π)) : InsertResult × TableState α :=
  if annos.length > 10000 then
    (InsertResult.limitExceeded annos.length 10000, st)
  else
    let pending : List (PendingRow α) := annos.map (fun a =>
      { id := if pyTruthyNat a.id then a.id else none,
        data := flat a.payload, created := now, valid := true })
    match commitOutcome with
    | none =>
      let assigned := assignIds st.nextId pending
      (InsertResult.ok, { rows := st.rows ++ assigned.1, nextId := assigned.2 })
    | some DbError.invalidRequestError => (InsertResult.failed, st)
    | some e => (InsertResult.uncaught e, st)

/-- DynamicAnnotationClient.update_annotation.  Truthiness-tests the
record's 'id', queries the row with that id (`.one()` on a primary-key
filter, hence find? on states with unique ids), refuses rows whose
superceded_id is truthy, otherwise inserts the flattened payload as a
fresh row (id assigned at flush = the table's counter), points the old
row's superceded_id at it, clears its valid flag and commits both
changes atomically. -/
def update_annotation {π α : Type} (flat : π → α) (now : Nat)
    (st : TableState α) (ann : Record π) : UpdateResult × TableState α :=
  if pyTruthyNat ann.id = false then
    (UpdateResult.msgNeedsId, st)
  else
    let anno_id := ann.id.getD 0
    match st.rows.find? (fun r => r.id == anno_id) with
    | none => (UpdateResult.msgNoResult anno_id, st)
    | some old_anno =>
      if pyTruthyNat old_anno.superceded_id then
        (UpdateResult.msgSuperseded anno_id (old_anno.superceded_id.getD 0), st)
      else
        (UpdateResult.msgUpdated anno_id,
         { rows :=
             (st.rows.map (fun r =>
               if r.id == anno_id then
                 { r with superceded_id := some st.nextId, valid := false }
               else r)) ++
             [{ id := st.nextId, data := flat ann.payload, created := now,
                valid := true, deleted := none, superceded_id := none }],
           nextId := st.nextId + 1 })

/-- DynamicAnnotationClient.delete_annotation.  Fetches all rows whose id
is in the given list; if none match, returns None without touching the
table, otherwise stamps every matched row's deleted column with the one
shared timestamp, commits and returns True. -/
def delete_annotation {α : Type} (now : Nat) (st : TableState α)
    (ids : List Nat) : Option Bool × TableState α :=
  let matched := st.rows.filter (fun r => decide (r.id ∈ ids))
  if matched.isEmpty then
    (none, st)
  else
    (some true,
     { st with rows := st.rows.map (fun r =>
         if r.id ∈ ids then { r with deleted := some now } else r) })

/-- Well-formedness of a stored table state, the invariants the storage
backend guarantees for committed data: primary-key ids are unique and
positive, below the autoincrement counter (which starts at 1), and any
set superceded_id is a storage-assigned (hence positive) id. -/
def WF {α : Type} (st : TableState α) : Prop :=
  (st.rows.map Row.id).Nodup ∧
  0 < st.nextId ∧
  (∀ r ∈ st.rows, 0 < r.id ∧ r.id < st.nextId) ∧
  (∀ r ∈ st.rows, r.superceded_id ≠ some 0)

instance {α : Type} [DecidableEq α] (st : TableState α) : Decidable (WF st) := by
  unfold WF
  infer_instance

/-- On a list of rows with pairwise-distinct ids, the primary-key lookup
of a member row's id finds exactly that row. -/
theorem find_id_of_mem {α : Type} (rows : List (Row α)) (row : Row α)
    (hnd : (rows.map Row.id).Nodup) (hmem : row ∈ rows) :
    rows.find? (fun r => r.id == row.id) = some row := by
  induction rows with
  | nil => cases hmem
  | cons a as ih =>
    rw [List.map_cons, List.nodup_cons] at hnd
    rcases List.mem_cons.mp hmem with h | h
    · subst h
      simp [List.find?_cons_of_pos]
    · have hne : (a.id == row.id) = false := by
        rw [beq_eq_false_iff_ne]
        intro he
        exact hnd.1 (he ▸ List.mem_map_of_mem Row.id h)
      rw [List.find?_cons_of_neg _ (by simp [hne]), ih hnd.2 h]

/-- Characterization of the update_annotation success path: a stored,
not-yet-superseded row with the record's id is found, and the commit
produces the superseded old row plus the fresh new row. -/
theorem update_annotation_success {π α : Type} (flat : π → α) (now : Nat)
    (st : TableState α) (ann : Record π) (row : Row α) (x : Nat)
    (hWF : WF st) (hid : ann.id = some x) (hrow : row ∈ st.rows)
    (hx : row.id = x) (hsup : row.superceded_id = none) :
    update_annotation flat now st ann =
      (UpdateResult.msgUpdated x,
       { rows := (st.rows.map (fun r =>
           if r.id == x then
             { r with superceded_id := some st.nextId, valid := false }
           else r)) ++
           [{ id := st.nextId, data := flat ann.payload, created := now,
              valid := true, deleted := none, superceded_id := none }],
         nextId := st.nextId + 1 }) := by
  obtain ⟨hnd, hpos, hbound, hsupWF⟩ := hWF
  have hx0 : x ≠ 0 := by
    have h1 := (hbound row hrow).1
    omega
  have htruthy : pyTruthyNat ann.id = true := by
    rw [hid]
    simpa [pyTruthyNat] using hx0
  have hfind : st.rows.find? (fun r => r.id == x) = some row := by
    rw [← hx]
    exact find_id_of_mem st.rows row hnd hrow
  have hsupF : pyTruthyNat row.superceded_id = false := by
    rw [hsup]
    rfl
  unfold update_annotation
  rw [htruthy, hid]
  simp only [Option.getD_some, Bool.true_eq_false, if_false, hfind, hsupF,
    Bool.false_eq_true]

/-- C1: updating a stored live (superceded_id null) row X with a
schema-valid payload returns the confirmation message, leaves X stored
with valid = false and superceded_id = Y where Y = the freshly assigned
id (an id held by no pre-existing row), and stores a new row Y with
valid = true whose flattened annotation fields are exactly the
flattening of the new payload. -/
theorem C1_update_supersedes_old_row {π α : Type} (flat : π → α) (now : Nat)
    (st : TableState α) (ann : Record π) (row : Row α) (x : Nat)
    (hWF : WF st) (hid : ann.id = some x) (hrow : row ∈ st.rows)
    (hx : row.id = x) (hsup : row.superceded_id = none) :
    ( update_annotation flat now st ann).1 = UpdateResult.msgUpdated x ∧
    { row with superceded_id := some st.nextId, valid := false }
        ∈ ( update_annotation flat now st ann).2.rows ∧
    ({ id := st.nextId, data := flat ann.payload, created := now, valid := true,
       deleted := none, superceded_id := none } : Row α)
        ∈ ( update_annotation flat now st ann).2.rows ∧
    (∀ r ∈ st.rows, r.id ≠ st.nextId) := by
  have hrun := update_annotation_success flat now st ann row x hWF hid hrow hx hsup
  rw [hrun]
  refine ⟨rfl, ?_, ?_, ?_⟩
  · apply List.mem_append_left
    rw [List.mem_map]
    refine ⟨row, hrow, ?_⟩
    rw [if_pos (by simp [hx])]
  · apply List.mem_append_right
    exact List.mem_singleton.mpr rfl
  · intro r hr
    have h2 := (hWF.2.2.1 r hr).2
    omega

/-- C1 witness: concrete single-row table, record id 1 with payload 7;
the old row is superseded by the fresh row 2 carrying the flattened
payload. -/
theorem C1_update_supersedes_old_row_witness :
    WF ({ rows := [{ id := 1, data := 0, created := 0, valid := true,
                     deleted := none, superceded_id := none }],
          nextId := 2 } : TableState Nat) ∧
    (( update_annotation (fun p : Nat => p + 100) 5
        { rows := [{ id := 1, data := 0, created := 0, valid := true,
                     deleted := none, superceded_id := none }], nextId := 2 }
        { id := some 1, payload := 7 }).1 = UpdateResult.msgUpdated 1 ∧
     ({ id := 1, data := 0, created := 0, valid := false,
        deleted := none, superceded_id := some 2 } : Row Nat)
        ∈ (( update_annotation (fun p : Nat => p + 100) 5
            { rows := [{ id := 1, data := 0, created := 0, valid := true,
                         deleted := none, superceded_id := none }], nextId := 2 }
            { id := some 1, payload := 7 }).2).rows ∧
     ({ id := 2, data := 107, created := 5, valid := true,
        deleted := none, superceded_id := none } : Row Nat)
        ∈ (( update_annotation (fun p : Nat => p + 100) 5
            { rows := [{ id := 1, data := 0, created := 0, valid := true,
                         deleted := none, superceded_id := none }], nextId := 2 }
            { id := some 1, payload := 7 }).2).rows ∧
     (∀ r ∈ ({ rows := [{ id := 1, data := 0, created := 0, valid := true,
                          deleted := none, superceded_id := none }],
               nextId := 2 } : TableState Nat).rows, r.id ≠ 2)) :=
  ⟨by decide,
   C1_update_supersedes_old_row (fun p : Nat => p + 100) 5
     { rows := [{ id := 1, data := 0, created := 0, valid := true,
                  deleted := none, superceded_id := none }], nextId := 2 }
     { id := some 1, payload := 7 }
     { id := 1, data := 0, created := 0, valid := true,
       deleted := none, superceded_id := none }
     1 (by decide) rfl (by decide) rfl rfl⟩

/-- C2: updating a stored row whose superceded_id is already set returns
the message naming the superseding id as the target to update instead,
and the call leaves the table state completely unchanged — no new row is
inserted. -/
theorem C2_update_refuses_superseded {π α : Type} (flat : π → α) (now : Nat)
    (st : TableState α) (ann : Record π) (row : Row α) (x y : Nat)
    (hWF : WF st) (hid : ann.id = some x) (hrow : row ∈ st.rows)
    (hx : row.id = x) (hsup : row.superceded_id = some y) :
    update_annotation flat now st ann = (UpdateResult.msgSuperseded x y, st) := by
  obtain ⟨hnd, hpos, hbound, hsupWF⟩ := hWF
  have hx0 : x ≠ 0 := by
    have h1 := (hbound row hrow).1
    omega
  have htruthy : pyTruthyNat ann.id = true := by
    rw [hid]
    simpa [pyTruthyNat] using hx0
  have hfind : st.rows.find? (fun r => r.id == x) = some row := by
    rw [← hx]
    exact find_id_of_mem st.rows row hnd hrow
  have hy0 : y ≠ 0 := by
    intro h
    exact hsupWF row hrow (h ▸ hsup)
  have hsupT : pyTruthyNat (some y) = true := by
    simpa [pyTruthyNat] using hy0
  unfold update_annotation
  rw [htruthy, hid]
  simp only [Option.getD_some, Bool.true_eq_false, if_false, hfind, hsup, hsupT,
    if_true]

/-- C2 witness: a two-row chain (row 1 superseded by row 2); updating
record id 1 is refused with the message naming 2 and the state is
unchanged. -/
theorem C2_update_refuses_superseded_witness :
    WF ({ rows := [{ id := 1, data := 0, created := 0, valid := false,
                     deleted := none, superceded_id := some 2 },
                   { id := 2, data := 3, created := 1, valid := true,
                     deleted := none, superceded_id := none }],
          nextId := 3 } : TableState Nat) ∧
    update_annotation (fun p : Nat => p) 9
        { rows := [{ id := 1, data := 0, created := 0, valid := false,
                     deleted := none, superceded_id := some 2 },
                   { id := 2, data := 3, created := 1, valid := true,
                     deleted := none, superceded_id := none }], nextId := 3 }
        { id := some 1, payload := 4 }
      = (UpdateResult.msgSuperseded 1 2,
         { rows := [{ id := 1, data := 0, created := 0, valid := false,
                      deleted := none, superceded_id := some 2 },
                    { id := 2, data := 3, created := 1, valid := true,
                      deleted := none, superceded_id := none }], nextId := 3 }) :=
  ⟨by decide,
   C2_update_refuses_superseded (fun p : Nat => p) 9
     { rows := [{ id := 1, data := 0, created := 0, valid := false,
                  deleted := none, superceded_id := some 2 },
                { id := 2, data := 3, created := 1, valid := true,
                  deleted := none, superceded_id := none }], nextId := 3 }
     { id := some 1, payload := 4 }
     { id := 1, data := 0, created := 0, valid := false,
       deleted := none, superceded_id := some 2 }
     1 2 (by decide) rfl (by decide) rfl rfl⟩

/-- C3 counterexample: a commit failing with IntegrityError (one of the
backend errors the client imports) is not caught by insert_annotations —
the exception escapes the store boundary uninterpreted instead of being
rolled back and reported as False. -/
theorem C3_insert_commit_counterexample :
    insert_annotations (fun n : Nat => n) 0 (some DbError.integrityError)
        ({ rows := [], nextId := 1 } : TableState Nat)
        [{ id := none, payload := 0 }]
      = (InsertResult.uncaught DbError.integrityError, { rows := [], nextId := 1 }) ∧
    InsertResult.uncaught DbError.integrityError ≠ InsertResult.failed := by
  decide

/-- C3 amended: only a commit failing with InvalidRequestError is caught:
then the batch is rolled back (table unchanged) and the call returns
False; a successful commit returns True; a commit failing with any other
backend error (IntegrityError, OperationalError, ArgumentError) escapes
the call uncaught. -/
theorem C3_insert_commit_amended {π α : Type} (flat : π → α) (now : Nat)
    (st : TableState α) (annos : List (Record π))
    (hlen : annos.length ≤ 10000) :
    insert_annotations flat now (some DbError.invalidRequestError) st annos
      = (InsertResult.failed, st) ∧
    (insert_annotations flat now none st annos).1 = InsertResult.ok ∧
    (∀ e : DbError, e ≠ DbError.invalidRequestError →
      insert_annotations flat now (some e) st annos
        = (InsertResult.uncaught e, st)) := by
  have hgt : ¬ annos.length > 10000 := by omega
  refine ⟨?_, ?_, ?_⟩
  · unfold insert_annotations
    rw [if_neg hgt]
  · unfold insert_annotations
    rw [if_neg hgt]
  · intro e he
    cases e with
    | argumentError =>
      unfold insert_annotations
      rw [if_neg hgt]
    | invalidRequestError => exact absurd rfl he
    | operationalError =>
      unfold insert_annotations
      rw [if_neg hgt]
    | integrityError =>
      unfold insert_annotations
      rw [if_neg hgt]

/-- C3 amended witness: the empty batch on an empty table is under the
limit; the three commit behaviours produce failed / ok / uncaught. -/
theorem C3_insert_commit_amended_witness :
    ([] : List (Record Nat)).length ≤ 10000 ∧
    (insert_annotations (fun n : Nat => n) 0 (some DbError.invalidRequestError)
        ({ rows := [], nextId := 1 } : TableState Nat) []
      = (InsertResult.failed, { rows := [], nextId := 1 }) ∧
     (insert_annotations (fun n : Nat => n) 0 none
        ({ rows := [], nextId := 1 } : TableState Nat) []).1 = InsertResult.ok ∧
     (∀ e : DbError, e ≠ DbError.invalidRequestError →
       insert_annotations (fun n : Nat => n) 0 (some e)
          ({ rows := [], nextId := 1 } : TableState Nat) []
         = (InsertResult.uncaught e, { rows := [], nextId := 1 }))) :=
  ⟨by decide,
   C3_insert_commit_amended (fun n : Nat => n) 0 { rows := [], nextId := 1 } []
     (by decide)⟩

/-- C4: a batch strictly larger than 10000 records makes
insert_annotations raise the limit error carrying the record count and
the limit, before any storage access, with the table unchanged; a batch
of at most 10000 records never produces the limit error, whatever the
commit does. -/
theorem C4_insert_limit {π α : Type} (flat : π → α) (now : Nat)
    (co : Option DbError) (st : TableState α) (annos : List (Record π)) :
    (10000 < annos.length →
      insert_annotations flat now co st annos
        = (InsertResult.limitExceeded annos.length 10000, st)) ∧
    (annos.length ≤ 10000 →
      ∀ c l : Nat, (insert_annotations flat now co st annos).1
        ≠ InsertResult.limitExceeded c l) := by
  constructor
  · intro h
    unfold insert_annotations
    rw [if_pos h]
  · intro h c l
    have hgt : ¬ annos.length > 10000 := by omega
    unfold insert_annotations
    rw [if_neg hgt]
    cases co with
    | none => simp
    | some e => cases e <;> simp

/-- C4 witness: 10001 records trigger the limit error with count 10001
and limit 10000, leaving the table unchanged; the empty batch never
produces the limit error. -/
theorem C4_insert_limit_witness :
    10000 < (List.replicate 10001 ({ id := none, payload := 0 } : Record Nat)).length ∧
    insert_annotations (fun n : Nat => n) 0 none
        ({ rows := [], nextId := 1 } : TableState Nat)
        (List.replicate 10001 { id := none, payload := 0 })
      = (InsertResult.limitExceeded
          (List.replicate 10001 ({ id := none, payload := 0 } : Record Nat)).length
          10000,
         { rows := [], nextId := 1 }) := by
  have hlen : 10000 <
      (List.replicate 10001 ({ id := none, payload := 0 } : Record Nat)).length := by
    simp only [List.length_replicate]
    omega
  exact ⟨hlen,
    (C4_insert_limit (fun n : Nat => n) 0 none { rows := [], nextId := 1 }
      (List.replicate 10001 { id := none, payload := 0 })).1 hlen⟩

/-- C10: the presence of a caller-supplied id is tested by Python
truthiness, so a record whose 'id' entry is the falsy value 0 is treated
as having no id: insert_annotations stores it under a fresh
storage-assigned id (not the supplied 0), and update_annotation returns
the "requires an 'id'" message leaving the table untouched. -/
theorem C10_falsy_id {π α : Type} (flat : π → α) (now : Nat)
    (st₁ st₂ : TableState α) (ann : Record π)
    (hid : ann.id = some 0) (hWF : WF st₁) :
    ((insert_annotations flat now none st₁ [ann]).2.rows
        = st₁.rows ++ [{ id := st₁.nextId, data := flat ann.payload, created := now,
                         valid := true, deleted := none, superceded_id := none }] ∧
      st₁.nextId ≠ 0) ∧
    update_annotation flat now st₂ ann = (UpdateResult.msgNeedsId, st₂) := by
  have hfalse : pyTruthyNat ann.id = false := by
    rw [hid]
    rfl
  refine ⟨⟨?_, ?_⟩, ?_⟩
  · unfold insert_annotations
    rw [if_neg (by simp)]
    simp only [List.map_cons, List.map_nil, hfalse, Bool.false_eq_true, if_false]
    rfl
  · have h1 := hWF.2.1
    omega
  · unfold update_annotation
    rw [if_pos (by rw [hfalse])]

/-- C10 witness: record { id := 0, payload := 5 } on an empty table with
counter 1 is stored under id 1, and the update call is refused. -/
theorem C10_falsy_id_witness :
    (({ id := some 0, payload := 5 } : Record Nat).id = some 0 ∧
      WF ({ rows := [], nextId := 1 } : TableState Nat)) ∧
    (((insert_annotations (fun n : Nat => n) 3 none
          ({ rows := [], nextId := 1 } : TableState Nat)
          [{ id := some 0, payload := 5 }]).2.rows
        = ({ rows := [], nextId := 1 } : TableState Nat).rows ++
          [{ id := 1, data := 5, created := 3, valid := true,
             deleted := none, superceded_id := none }] ∧
      (1 : Nat) ≠ 0) ∧
     update_annotation (fun n : Nat => n) 3
         ({ rows := [], nextId := 1 } : TableState Nat)
         { id := some 0, payload := 5 }
       = (UpdateResult.msgNeedsId, { rows := [], nextId := 1 })) :=
  ⟨⟨rfl, by decide⟩,
   C10_falsy_id (fun n : Nat => n) 3 { rows := [], nextId := 1 }
     { rows := [], nextId := 1 } { id := some 0, payload := 5 } rfl (by decide)⟩

/-- C8: deleting by an id set returns None and leaves the table
untouched when no stored row's id is in the set; otherwise it returns
True, keeps the id counter, and the resulting rows are exactly the old
rows with every matched row's deleted column stamped with the one shared
timestamp — every unmatched row (all its fields, in particular its
superceded_id link) is stored unchanged. -/
theorem C8_delete_semantics {α : Type} (now : Nat) (st : TableState α)
    (ids : List Nat) :
    ((∀ r ∈ st.rows, r.id ∉ ids) → delete_annotation now st ids = (none, st)) ∧
    ((∃ r ∈ st.rows, r.id ∈ ids) →
      ( delete_annotation now st ids).1 = some true ∧
      ( delete_annotation now st ids).2.nextId = st.nextId ∧
      ( delete_annotation now st ids).2.rows
        = st.rows.map (fun r =>
            if r.id ∈ ids then { r with deleted := some now } else r) ∧
      (∀ r ∈ st.rows,
        (r.id ∈ ids →
          { r with deleted := some now } ∈ ( delete_annotation now st ids).2.rows) ∧
        (r.id ∉ ids → r ∈ ( delete_annotation now st ids).2.rows))) := by
  constructor
  · intro h
    have hemp : (st.rows.filter (fun r => decide (r.id ∈ ids))).isEmpty = true := by
      rw [List.isEmpty_iff, List.filter_eq_nil_iff]
      intro a ha
      simpa using h a ha
    unfold delete_annotation
    rw [if_pos hemp]
  · intro h
    obtain ⟨r0, hr0, hr0id⟩ := h
    have hne : ¬ (st.rows.filter (fun r => decide (r.id ∈ ids))).isEmpty = true := by
      rw [List.isEmpty_iff, List.filter_eq_nil_iff]
      intro hall
      exact hall r0 hr0 (by simpa using hr0id)
    have hrun : delete_annotation now st ids =
        (some true,
         { st with rows := st.rows.map (fun r =>
             if r.id ∈ ids then { r with deleted := some now } else r) }) := by
      unfold delete_annotation
      rw [if_neg hne]
    rw [hrun]
    refine ⟨rfl, rfl, rfl, ?_⟩
    intro r hr
    constructor
    · intro hin
      apply List.mem_map.mpr
      exact ⟨r, hr, by rw [if_pos hin]⟩
    · intro hout
      apply List.mem_map.mpr
      exact ⟨r, hr, by rw [if_neg hout]⟩

/-- C8 witness: table with rows 1 and 2, deleting id set {1}: row 1 is
tombstoned with the shared timestamp 7, row 2 is stored unchanged, and
the call returns True. -/
theorem C8_delete_semantics_witness :
    (∃ r ∈ ({ rows := [{ id := 1, data := 0, created := 0, valid := true,
                         deleted := none, superceded_id := none },
                       { id := 2, data := 3, created := 1, valid := true,
                         deleted := none, superceded_id := some 9 }],
              nextId := 3 } : TableState Nat).rows, r.id ∈ [1]) ∧
    (( delete_annotation 7
        ({ rows := [{ id := 1, data := 0, created := 0, valid := true,
                      deleted := none, superceded_id := none },
                    { id := 2, data := 3, created := 1, valid := true,
                      deleted := none, superceded_id := some 9 }],
           nextId := 3 } : TableState Nat) [1]).1 = some true ∧
     ( delete_annotation 7
        ({ rows := [{ id := 1, data := 0, created := 0, valid := true,
                      deleted := none, superceded_id := none },
                    { id := 2, data := 3, created := 1, valid := true,
                      deleted := none, superceded_id := some 9 }],
           nextId := 3 } : TableState Nat) [1]).2.nextId
       = ({ rows := [{ id := 1, data := 0, created := 0, valid := true,
                       deleted := none, superceded_id := none },
                     { id := 2, data := 3, created := 1, valid := true,
                       deleted := none, superceded_id := some 9 }],
            nextId := 3 } : TableState Nat).nextId ∧
     ( delete_annotation 7
        ({ rows := [{ id := 1, data := 0, created := 0, valid := true,
                      deleted := none, superceded_id := none },
                    { id := 2, data := 3, created := 1, valid := true,
                      deleted := none, superceded_id := some 9 }],
           nextId := 3 } : TableState Nat) [1]).2.rows
       = ({ rows := [{ id := 1, data := 0, created := 0, valid := true,
                       deleted := none, superceded_id := none },
                     { id := 2, data := 3, created := 1, valid := true,
                       deleted := none, superceded_id := some 9 }],
            nextId := 3 } : TableState Nat).rows.map (fun r =>
              if r.id ∈ [1] then { r with deleted := some 7 } else r) ∧
     (∀ r ∈ ({ rows := [{ id := 1, data := 0, created := 0, valid := true,
                          deleted := none, superceded_id := none },
                        { id := 2, data := 3, created := 1, valid := true,
                          deleted := none, superceded_id := some 9 }],
               nextId := 3 } : TableState Nat).rows,
        (r.id ∈ [1] →
          { r with deleted := some 7 } ∈
            ( delete_annotation 7
              ({ rows := [{ id := 1, data := 0, created := 0, valid := true,
                            deleted := none, superceded_id := none },
                          { id := 2, data := 3, created := 1, valid := true,
                            deleted := none, superceded_id := some 9 }],
                 nextId := 3 } : TableState Nat) [1]).2.rows) ∧
        (r.id ∉ [1] →
          r ∈ ( delete_annotation 7
              ({ rows := [{ id := 1, data := 0, created := 0, valid := true,
                            deleted := none, superceded_id := none },
                          { id := 2, data := 3, created := 1, valid := true,
                            deleted := none, superceded_id := some 9 }],
                 nextId := 3 } : TableState Nat) [1]).2.rows))) :=
  ⟨by decide,
   (C8_delete_semantics 7
     { rows := [{ id := 1, data := 0, created := 0, valid := true,
                  deleted := none, superceded_id := none },
                { id := 2, data := 3, created := 1, valid := true,
                  deleted := none, superceded_id := some 9 }],
       nextId := 3 } [1]).2 (by decide)⟩

/-! ## Schema metadata parsing (src/dynamicannotationdb/schema.py) -/

/-- The two metadata dict entries _parse_schema_metadata_params inspects
(Python dict keys are unique, so a dict restricts to at most one value
per key; every other key is ignored by the loop). -/
structure TableMetadataFields where
  reference_table : Option String
  track_target_id_updates : Option String
deriving Repr, DecidableEq

/-- The three exceptions _parse_schema_metadata_params can raise:
builtin TypeError, SelfReferenceTableError, TableNameNotFound. -/
inductive SchemaParseError
  | typeError
  | selfReferenceTableError
  | tableNameNotFound (value : String)
deriving Repr, DecidableEq

/-- DynamicSchemaClient._parse_schema_metadata_params.
`isReferenceSchema` abstracts the external
`issubclass(get_schema(schema_type), ReferenceAnnotation)` test of the
schema registry.  When the metadata carries a reference_table entry the
code raises TypeError for a non-reference schema, SelfReferenceTableError
when the value names the table being created, TableNameNotFound when the
value is not an existing table, and otherwise records the value; a
track_target_id_updates entry is passed through unchanged. -/
def parse_schema_metadata_params (isReferenceSchema : String → Bool)
    (schema_type : String) (table_name : String)
    (table_metadata : TableMetadataFields) (existing_tables : List String) :
    Except SchemaParseError (Option String × Option String) :=
  match table_metadata.reference_table with
  | none => Except.ok (none, table_metadata.track_target_id_updates)
  | some value =>
    if isReferenceSchema schema_type = false then
      Except.error SchemaParseError.typeError
    else if table_name = value then
      Except.error SchemaParseError.selfReferenceTableError
    else if value ∉ existing_tables then
      Except.error (SchemaParseError.tableNameNotFound value)
    else
      Except.ok (some value, table_metadata.track_target_id_updates)

/-- C9: with a reference_table entry present in the metadata, the parser
raises TypeError when the schema is not reference-kind, raises
SelfReferenceTableError when the entry names the table being created,
raises TableNameNotFound when the entry is not an existing table, and
otherwise returns the entry as the reference table together with any
track_target_id_updates value. -/
theorem C9_reference_metadata (isReferenceSchema : String → Bool)
    (schema_type table_name : String) (md : TableMetadataFields)
    (existing_tables : List String) (v : String)
    (h : md.reference_table = some v) :
    (isReferenceSchema schema_type = false →
      parse_schema_metadata_params isReferenceSchema schema_type table_name md
          existing_tables
        = Except.error SchemaParseError.typeError) ∧
    (isReferenceSchema schema_type = true → v = table_name →
      parse_schema_metadata_params isReferenceSchema schema_type table_name md
          existing_tables
        = Except.error SchemaParseError.selfReferenceTableError) ∧
    (isReferenceSchema schema_type = true → v ≠ table_name →
      v ∉ existing_tables →
      parse_schema_metadata_params isReferenceSchema schema_type table_name md
          existing_tables
        = Except.error (SchemaParseError.tableNameNotFound v)) ∧
    (isReferenceSchema schema_type = true → v ≠ table_name →
      v ∈ existing_tables →
      parse_schema_metadata_params isReferenceSchema schema_type table_name md
          existing_tables
        = Except.ok (some v, md.track_target_id_updates)) := by
  refine ⟨?_, ?_, ?_, ?_⟩
  · intro href
    simp [parse_schema_metadata_params, h, href]
  · intro href hself
    simp [parse_schema_metadata_params, h, href, hself]
  · intro href hself hex
    have hns : ¬ table_name = v := fun hs => hself hs.symm
    simp [parse_schema_metadata_params, h, href, hns, hex]
  · intro href hself hex
    have hns : ¬ table_name = v := fun hs => hself hs.symm
    simp [parse_schema_metadata_params, h, href, hns, hex]

/-- C9 witness: a reference-kind schema, metadata referencing existing
table "r" different from the created table "t": the parser accepts and
returns ("r", the tracked-updates value). -/
theorem C9_reference_metadata_witness :
    ({ reference_table := some "r", track_target_id_updates := some "true" }
        : TableMetadataFields).reference_table = some "r" ∧
    parse_schema_metadata_params (fun _ => true) "synapse" "t"
        { reference_table := some "r", track_target_id_updates := some "true" }
        ["r"]
      = Except.ok (some "r",
          ({ reference_table := some "r", track_target_id_updates := some "true" }
            : TableMetadataFields).track_target_id_updates) :=
  ⟨rfl,
   (C9_reference_metadata (fun _ => true) "synapse" "t"
     { reference_table := some "r", track_target_id_updates := some "true" }
     ["r"] "r" rfl).2.2.2 rfl (by decide) (by decide)⟩
